import Mathlib

/-!
Shallow embedding of the hal-net frame-transport layer
(`src/oc/hal/net/UdpTransport.{hpp,cpp}` and
`src/oc/hal/net/WebSocketTransport.{hpp,cpp}`).

Pure modelling conventions:
* `uint32_t` fields hold a `Nat` together with an explicit `% 2^32` at every
  operation that can wrap (the backoff doubling, the attempt counter, and the
  `now - lastAttemptMs_` elapsed-time subtraction).
* A frame / datagram is a list of bytes (`List Nat`).
* External effects are explicit: socket-creation results, the current
  `millis()` clock value and inbound datagrams are parameters; outbound
  transmissions and receive-callback invocations are returned as lists.
* The registered receive callback is modelled by an identity token
  (`Option Nat`, `none` = no callback registered), since the layer only
  stores, replaces and null-tests it.
* Moved-from `std::string` / `std::vector` / `std::function` members are
  modelled as emptied, the usual library behaviour; no claim depends on it.
-/

namespace oc.hal.net

/-- One opaque frame / datagram: a byte sequence. -/
abbrev Frame := List Nat

/-- Modulus of `uint32_t` arithmetic. -/
def U32MOD : Nat := 4294967296

/-- Wraparound 32-bit subtraction, as `now - lastAttemptMs_` computes on
`uint32_t` operands. -/
def u32sub (a b : Nat) : Nat :=
  (a % U32MOD + U32MOD - b % U32MOD) % U32MOD

/-- Source struct `WebSocketConfig` (WebSocketTransport.hpp, lines 63-78), with its source
defaults. -/
structure WebSocketConfig where
  url : String := "ws://127.0.0.1:9002"
  autoReconnect : Bool := true
  reconnectDelayMs : Nat := 1000
  reconnectMaxDelayMs : Nat := 30000
  maxPendingMessages : Nat := 100
deriving DecidableEq

/-- Source enum `WebSocketTransport::State` (WebSocketTransport.hpp, lines 153-157). -/
inductive WebSocketTransport.State where
  | Disconnected
  | Connecting
  | Connected
deriving DecidableEq

/-- The mutable fields of `WebSocketTransport`
(WebSocketTransport.hpp, lines 169-181).  `socket = 0` means no underlying
handle (`EMSCRIPTEN_WEBSOCKET_T socket_ = 0`). -/
structure WebSocketTransport where
  config : WebSocketConfig
  socket : Int := 0
  state : WebSocketTransport.State := WebSocketTransport.State.Disconnected
  onReceive : Option Nat := none
  pendingMessages : List Frame := []
  lastAttemptMs : Nat := 0
  currentDelayMs : Nat := 0
  reconnectAttempts : Nat := 0
deriving DecidableEq

namespace WebSocketTransport

/-- The constructor `WebSocketTransport(const WebSocketConfig&)`
(WebSocketTransport.cpp, lines 24-26): stores the config and initialises
`currentDelayMs_` to `config.reconnectDelayMs`. -/
def make (config : WebSocketConfig) : WebSocketTransport :=
  { config := config, currentDelayMs := config.reconnectDelayMs }

/-- Source method `WebSocketTransport::scheduleReconnect` (WebSocketTransport.cpp,
lines 145-154): returns immediately when `autoReconnect` is disabled;
otherwise doubles the current delay (capped at `reconnectMaxDelayMs`),
stamps `lastAttemptMs_` with `millis()` and increments the attempt
counter.  `now` is the value `oc::time::millis()` returns. -/
def scheduleReconnect (ws : WebSocketTransport) (now : Nat) : WebSocketTransport :=
  if ws.config.autoReconnect = false then ws
  else
    { ws with
        currentDelayMs := min ((ws.currentDelayMs * 2) % U32MOD) ws.config.reconnectMaxDelayMs,
        lastAttemptMs := now,
        reconnectAttempts := (ws.reconnectAttempts + 1) % U32MOD }

/-- Source method `WebSocketTransport::connect` (WebSocketTransport.cpp, lines 101-128):
deletes any existing handle, stores the result of
`emscripten_websocket_new` (`newHandle`; `<= 0` means creation failed), and
on failure calls `scheduleReconnect` while on success transitions to
`Connecting`. -/
def connect (ws : WebSocketTransport) (newHandle : Int) (now : Nat) : WebSocketTransport :=
  let deleted := if 0 < ws.socket then { ws with socket := 0 } else ws
  let created := { deleted with socket := newHandle }
  if newHandle ≤ 0 then scheduleReconnect created now
  else { created with state := State.Connecting }

/-- Source method `WebSocketTransport::init` (WebSocketTransport.cpp, lines 40-49):
fails when the environment lacks WebSocket support, otherwise issues a
connect attempt and returns success.  The boolean result is `true` for
`Result::ok()`. -/
def init (ws : WebSocketTransport) (supported : Bool) (newHandle : Int) (now : Nat) :
    WebSocketTransport × Bool :=
  if supported = false then (ws, false)
  else (connect ws newHandle now, true)

/-- Source method `WebSocketTransport::update` (WebSocketTransport.cpp, lines 51-62):
when `Disconnected` with `autoReconnect` enabled and the elapsed time since
the last attempt has reached the current delay, issues a connect attempt
and stamps `lastAttemptMs_ = now`.  The boolean result records whether a
connect attempt was issued. -/
def update (ws : WebSocketTransport) (now : Nat) (newHandle : Int) :
    WebSocketTransport × Bool :=
  if ws.state = State.Disconnected ∧ ws.config.autoReconnect = true then
    if ws.currentDelayMs ≤ u32sub now ws.lastAttemptMs then
      let w := connect ws newHandle now
      ({ w with lastAttemptMs := now }, true)
    else (ws, false)
  else (ws, false)

/-- Source method `WebSocketTransport::send` (WebSocketTransport.cpp, lines 64-87):
when `Connected`, transmits immediately (the returned list holds the
transmitted frames); otherwise buffers the frame, evicting the oldest
buffered frame first when `maxPendingMessages` is nonzero and the buffer
is full. -/
def send (ws : WebSocketTransport) (data : Frame) : WebSocketTransport × List Frame :=
  if ws.state = State.Connected then (ws, [data])
  else if ws.config.maxPendingMessages = 0 ∨
          ws.pendingMessages.length < ws.config.maxPendingMessages then
    ({ ws with pendingMessages := ws.pendingMessages ++ [data] }, [])
  else
    ({ ws with pendingMessages := ws.pendingMessages.drop 1 ++ [data] }, [])

/-- Source method `WebSocketTransport::setOnReceive` (WebSocketTransport.cpp, lines 89-91). -/
def setOnReceive (ws : WebSocketTransport) (cb : Option Nat) : WebSocketTransport :=
  { ws with onReceive := cb }

/-- Source method `WebSocketTransport::isReady` (WebSocketTransport.cpp, lines 93-95). -/
def isReady (ws : WebSocketTransport) : Bool :=
  ws.state = State.Connected

/-- Source method `WebSocketTransport::flushPendingMessages` (WebSocketTransport.cpp,
lines 130-143): transmits every buffered frame in order, then clears the
buffer; returns immediately when the buffer is empty. -/
def flushPendingMessages (ws : WebSocketTransport) : WebSocketTransport × List Frame :=
  if ws.pendingMessages = [] then (ws, [])
  else ({ ws with pendingMessages := [] }, ws.pendingMessages)

/-- The `onOpen` event handler (WebSocketTransport.cpp, lines 160-176):
transitions to `Connected`, resets the backoff delay to
`reconnectDelayMs` and the attempt counter to 0, then flushes the pending
buffer. -/
def onOpen (ws : WebSocketTransport) : WebSocketTransport × List Frame :=
  flushPendingMessages
    { ws with
        state := State.Connected,
        currentDelayMs := ws.config.reconnectDelayMs,
        reconnectAttempts := 0 }

/-- The `onMessage` event handler (WebSocketTransport.cpp, lines 178-189):
a binary payload is delivered to the registered callback; text payloads,
or any payload with no callback registered, are dropped.  The returned
list holds the callback invocations. -/
def onMessage (ws : WebSocketTransport) (isText : Bool) (payload : Frame) : List Frame :=
  if isText = false ∧ ws.onReceive ≠ none then [payload] else []

/-- The `onClose` event handler (WebSocketTransport.cpp, lines 191-203):
transitions to `Disconnected` and calls `scheduleReconnect`. -/
def onClose (ws : WebSocketTransport) (now : Nat) : WebSocketTransport :=
  scheduleReconnect { ws with state := State.Disconnected } now

/-- The `onError` event handler (WebSocketTransport.cpp, lines 205-214):
only logs; no state change (the browser follows with a close event). -/
def onError (ws : WebSocketTransport) : WebSocketTransport :=
  ws

end WebSocketTransport

/-- Source struct `UdpConfig` (UdpTransport.hpp, lines 73-82), with its source defaults. -/
structure UdpConfig where
  host : String := "127.0.0.1"
  port : Nat := 9001
  recvBufferSize : Nat := 4096
deriving DecidableEq

/-- The `sockaddr_in` destination the transport keeps (`destAddr_`),
reduced to the data the layer writes into it: peer host and port. -/
structure SockAddrIn where
  host : String := ""
  port : Nat := 0
deriving DecidableEq

/-- The mutable fields of `UdpTransport` (UdpTransport.hpp, lines 151-167),
POSIX branch: `socket = -1` means no socket.  `recvBufferLen` is
`recvBuffer_.size()`; the buffer's byte contents are observable only
through the receive callback and are carried in `update`'s result. -/
structure UdpTransport where
  config : UdpConfig
  onReceive : Option Nat := none
  initialized : Bool := false
  socket : Int := -1
  destAddr : SockAddrIn := {}
  recvBufferLen : Nat := 0
deriving DecidableEq

/-- Outcomes of the OS calls `init()` makes: the `socket()` result
(negative = failure), and whether the `fcntl` non-blocking setup and
`bind` succeed. -/
structure UdpInitEnv where
  socketFd : Int
  fcntlOk : Bool
  bindOk : Bool
deriving DecidableEq

namespace UdpTransport

/-- The constructor `UdpTransport(const UdpConfig&)` (UdpTransport.cpp,
lines 21-24): stores the config and resizes the receive buffer to
`config.recvBufferSize`. -/
def make (config : UdpConfig) : UdpTransport :=
  { config := config, recvBufferLen := config.recvBufferSize }

/-- Source method `UdpTransport::cleanup` (UdpTransport.cpp, lines 226-245), POSIX
branch: closes the socket and clears `initialized_`. -/
def cleanup (u : UdpTransport) : UdpTransport :=
  { u with socket := -1, initialized := false }

/-- Source method `UdpTransport::init` (UdpTransport.cpp, lines 64-146), POSIX branch:
returns success at once when already initialized; otherwise creates the
socket, makes it non-blocking, binds it, and records the peer address
from the config.  The boolean result is `true` for `Result::ok()`. -/
def init (u : UdpTransport) (env : UdpInitEnv) : UdpTransport × Bool :=
  if u.initialized then (u, true)
  else
    let u1 := { u with socket := env.socketFd }
    if env.socketFd < 0 then (u1, false)
    else if env.fcntlOk = false then (cleanup u1, false)
    else if env.bindOk = false then (cleanup u1, false)
    else
      ({ u1 with
           destAddr := { host := u.config.host, port := u.config.port },
           initialized := true },
       true)

/-- Source method `UdpTransport::update` (UdpTransport.cpp, lines 148-186), POSIX
branch: returns at once when uninitialized or no callback is registered;
otherwise performs one non-blocking `recvfrom`.  `incoming` is the
datagram the OS would deliver (`none` = would block); `recvfrom` copies
at most `recvBuffer_.size()` bytes and returns the count, and the
callback fires only when that count is positive.  The returned list
holds the callback invocations. -/
def update (u : UdpTransport) (incoming : Option Frame) : UdpTransport × List Frame :=
  if u.initialized = false ∨ u.onReceive = none then (u, [])
  else
    match incoming with
    | none => (u, [])
    | some d =>
        let bytesReceived := min d.length u.recvBufferLen
        if 0 < bytesReceived then (u, [d.take u.recvBufferLen]) else (u, [])

/-- Source method `UdpTransport::send` (UdpTransport.cpp, lines 188-220), POSIX branch:
returns at once when uninitialized; otherwise hands the bytes to
`sendto` as one datagram (a failure is only logged).  The result carries
the transmitted datagram, `none` when nothing was handed to the OS. -/
def send (u : UdpTransport) (data : Frame) : UdpTransport × Option Frame :=
  if u.initialized = false then (u, none) else (u, some data)

/-- Source method `UdpTransport::setOnReceive` (UdpTransport.cpp, lines 222-224). -/
def setOnReceive (u : UdpTransport) (cb : Option Nat) : UdpTransport :=
  { u with onReceive := cb }

/-- Source method `UdpTransport::isReady` (UdpTransport.hpp, line 149). -/
def isReady (u : UdpTransport) : Bool :=
  u.initialized

/-- A moved-from `UdpConfig`: the `std::string` host is moved out
(modelled as emptied); the integral fields are copied. -/
def movedConfig (c : UdpConfig) : UdpConfig :=
  { c with host := "" }

/-- The move constructor (UdpTransport.cpp, lines 30-43): the destination
takes every field of `other`; `other` keeps `destAddr_` (a copied POD),
loses its containers, and is reset to `socket_ = -1`,
`initialized_ = false`.  Result: (destination, moved-from source). -/
def moveFrom (other : UdpTransport) : UdpTransport × UdpTransport :=
  ({ config := other.config, onReceive := other.onReceive,
     initialized := other.initialized, socket := other.socket,
     destAddr := other.destAddr, recvBufferLen := other.recvBufferLen },
   { config := movedConfig other.config, onReceive := none,
     initialized := false, socket := -1,
     destAddr := other.destAddr, recvBufferLen := 0 })

/-- The move assignment (UdpTransport.cpp, lines 45-62): first `cleanup()`
releases the destination's own socket, then every field is taken from
`other` exactly as in the move constructor, so the resulting pair does
not depend on the destination's prior fields. -/
def moveAssign (_this other : UdpTransport) : UdpTransport × UdpTransport :=
  moveFrom other

end UdpTransport

/-! Concrete instances used by scenario claims, counterexamples and
witnesses. -/

/-- The backoff-scenario configuration: `reconnectDelayMs = 1000`,
`reconnectMaxDelayMs = 8000`, `autoReconnect` enabled. -/
def backoffConfig : WebSocketConfig :=
  { reconnectDelayMs := 1000, reconnectMaxDelayMs := 8000 }

/-- Freshly constructed transport of the backoff scenario. -/
def c1ws0 : WebSocketTransport := WebSocketTransport.make backoffConfig

/-- Attempt 1: `init()` at t=0 creates handle 1 and starts connecting. -/
def c1ws1 : WebSocketTransport := (c1ws0.init true 1 0).1

/-- Attempt 1 fails: close event at t=100. -/
def c1ws2 : WebSocketTransport := c1ws1.onClose 100

/-- Attempt 2: `update()` at t=2100 (elapsed 2000) issues the connect. -/
def c1ws3 : WebSocketTransport := (c1ws2.update 2100 2).1

/-- Attempt 2 fails: close event at t=2200. -/
def c1ws4 : WebSocketTransport := c1ws3.onClose 2200

/-- Attempt 3: `update()` at t=6200 (elapsed 4000) issues the connect. -/
def c1ws5 : WebSocketTransport := (c1ws4.update 6200 3).1

/-- Attempt 3 fails: close event at t=6300. -/
def c1ws6 : WebSocketTransport := c1ws5.onClose 6300

/-- Attempt 4: `update()` at t=14300 (elapsed 8000) issues the connect. -/
def c1ws7 : WebSocketTransport := (c1ws6.update 14300 4).1

/-- A connected transport with `autoReconnect` disabled,
`reconnectDelayMs = 1000`, `reconnectMaxDelayMs = 8000`. -/
def noReconnectWs : WebSocketTransport :=
  { config := { autoReconnect := false, reconnectDelayMs := 1000, reconnectMaxDelayMs := 8000 },
    socket := 1, state := WebSocketTransport.State.Connected, currentDelayMs := 1000 }

/-- A connected transport with `autoReconnect` enabled and the backoff
configuration. -/
def autoWs : WebSocketTransport :=
  { config := backoffConfig, socket := 1,
    state := WebSocketTransport.State.Connected, currentDelayMs := 1000 }

/-- Transport after a first successful `init()` (handle 1, `Connecting`). -/
def c2ws1 : WebSocketTransport := ((WebSocketTransport.make {}).init true 1 0).1

/-- The same transport after its open event (`Connected`, handle 1). -/
def c2ws1open : WebSocketTransport := c2ws1.onOpen.1

/-- The same transport after a second `init()` call, during which
`emscripten_websocket_new` returns handle 2 at t=5. -/
def c2ws2 : WebSocketTransport := (c2ws1open.init true 2 5).1

/-- Disconnected transport with `maxPendingMessages = 2`. -/
def cap2Ws : WebSocketTransport := WebSocketTransport.make { maxPendingMessages := 2 }

/-- Buffer state of `cap2Ws` after sending frames A = [65], B = [66], C = [67] while
disconnected. -/
def cap2After : WebSocketTransport :=
  (((cap2Ws.send [65]).1.send [66]).1.send [67]).1

/-- An initialized UDP transport with a registered callback and
`recvBufferSize = 4096`. -/
def udp4096 : UdpTransport :=
  { config := { host := "127.0.0.1", port := 9001, recvBufferSize := 4096 },
    onReceive := some 0, initialized := true, socket := 3,
    destAddr := { host := "127.0.0.1", port := 9001 }, recvBufferLen := 4096 }

/-- A 10-byte datagram. -/
def datagram10 : Frame := [1, 2, 3, 4, 5, 6, 7, 8, 9, 10]

/-- A freshly constructed Datagram Channel, `init()` never called. -/
def freshUdp : UdpTransport := UdpTransport.make {}

/-! Helper lemmas shared by the claim theorems. -/

/-- Helper: a connect attempt whose handle creation succeeds replaces the
socket with the new handle and transitions to `Connecting`. -/
theorem WebSocketTransport.connect_pos (ws : WebSocketTransport) (n : Int) (now : Nat)
    (h : 0 < n) :
    ws.connect n now =
      { ws with socket := n, state := WebSocketTransport.State.Connecting } := by
  have h' : ¬(n ≤ 0) := by omega
  cases ws with
  | mk config socket state onReceive pendingMessages lastAttemptMs currentDelayMs
      reconnectAttempts =>
    by_cases hs : (0 : Int) < socket <;>
      simp [WebSocketTransport.connect, h', hs]

/-! Claim theorems. -/

/-- C1 counterexample: with `reconnectDelayMs = 1000` and
`reconnectMaxDelayMs = 8000`, after `init()` and the first failed connect
attempt the scheduled delay before attempt 2 is 2000 ms, not 1000 ms as
the claim states: `update()` at 1000 ms elapsed does not attempt, while
at 2000 ms elapsed it does. -/
theorem C1_backoff_counterexample :
    c1ws2.currentDelayMs = 2000 ∧ c1ws2.currentDelayMs ≠ 1000 ∧
    (c1ws2.update 1100 2).2 = false ∧ (c1ws2.update 2100 2).2 = true := by
  decide

/-- C1 amended: with `reconnectDelayMs = 1000` and
`reconnectMaxDelayMs = 8000`, after `init()` and three consecutive failed
connect attempts with no successful connection, the scheduled reconnect
delays before attempts 2, 3 and 4 are 2000 ms, 4000 ms and 8000 ms
respectively (the cap is reached at attempt 4), because
`scheduleReconnect` doubles the delay before the first wait. -/
theorem C1_backoff_amended :
    c1ws2.currentDelayMs = 2000 ∧
    c1ws4.currentDelayMs = 4000 ∧
    c1ws6.currentDelayMs = 8000 ∧
    c1ws6.currentDelayMs = backoffConfig.reconnectMaxDelayMs ∧
    c1ws2.reconnectAttempts = 1 ∧
    c1ws4.reconnectAttempts = 2 ∧
    c1ws6.reconnectAttempts = 3 ∧
    c1ws3.state = WebSocketTransport.State.Connecting ∧
    c1ws5.state = WebSocketTransport.State.Connecting ∧
    c1ws7.state = WebSocketTransport.State.Connecting := by
  decide

/-- C2 counterexample: on the Socket-Stream Channel a second `init()`
without teardown is not a no-op: starting from a connected transport
whose handle is 1, a second `init()` creates a new handle (2) and moves
the state back to `Connecting`. -/
theorem C2_init_counterexample :
    c2ws1open.socket = 1 ∧
    c2ws1open.state = WebSocketTransport.State.Connected ∧
    c2ws2.socket = 2 ∧
    c2ws2.socket ≠ c2ws1open.socket ∧
    c2ws2.state = WebSocketTransport.State.Connecting ∧
    (c2ws1open.init true 2 5).2 = true := by
  decide

/-- C2 amended: for the Datagram Channel, a second `init()` without
teardown is a no-op returning success and creates no new socket; for the
Socket-Stream Channel, a second `init()` returns success but is not a
no-op: it deletes the existing handle and creates a fresh one, issuing a
new connect attempt (at most one handle exists at any time). -/
theorem C2_init_amended (u : UdpTransport) (env : UdpInitEnv)
    (ws : WebSocketTransport) (newHandle : Int) (now : Nat)
    (hu : u.initialized = true) (hws : 0 < newHandle) :
    u.init env = (u, true) ∧
    (ws.init true newHandle now).2 = true ∧
    (ws.init true newHandle now).1.socket = newHandle ∧
    (ws.init true newHandle now).1.state = WebSocketTransport.State.Connecting := by
  have hc := WebSocketTransport.connect_pos ws newHandle now hws
  refine ⟨by simp [UdpTransport.init, hu], ?_, ?_, ?_⟩ <;>
    simp [WebSocketTransport.init, hc]

/-- C2 witness: the amended claim at an initialized UDP transport and a
connected WebSocket transport, with concrete OS results. -/
theorem C2_init_amended_witness :
    udp4096.initialized = true ∧ (0 : Int) < 2 ∧
    udp4096.init { socketFd := 9, fcntlOk := true, bindOk := true } = (udp4096, true) ∧
    (c2ws1open.init true 2 5).1.socket = 2 :=
  ⟨by decide, by decide,
   (C2_init_amended udp4096 { socketFd := 9, fcntlOk := true, bindOk := true }
      c2ws1open 2 5 (by decide) (by decide)).1,
   (C2_init_amended udp4096 { socketFd := 9, fcntlOk := true, bindOk := true }
      c2ws1open 2 5 (by decide) (by decide)).2.2.1⟩

/-- C5 counterexample: with `autoReconnect` disabled, a close event while
`Connected` (delay 1000, cap 8000) moves the state to `Disconnected` but
leaves the backoff delay at 1000 (not `min(1000 * 2, 8000) = 2000`) and
leaves the attempt counter at 0 (it does not increment). -/
theorem C5_onClose_counterexample :
    (noReconnectWs.onClose 500).state = WebSocketTransport.State.Disconnected ∧
    noReconnectWs.currentDelayMs = 1000 ∧
    min (noReconnectWs.currentDelayMs * 2) noReconnectWs.config.reconnectMaxDelayMs = 2000 ∧
    (noReconnectWs.onClose 500).currentDelayMs = 1000 ∧
    (noReconnectWs.onClose 500).currentDelayMs ≠
      min (noReconnectWs.currentDelayMs * 2) noReconnectWs.config.reconnectMaxDelayMs ∧
    (noReconnectWs.onClose 500).reconnectAttempts = 0 ∧
    (noReconnectWs.onClose 500).reconnectAttempts ≠
      noReconnectWs.reconnectAttempts + 1 := by
  decide

/-- C5 amended: when a close event fires, the state becomes
`Disconnected`; when `autoReconnect` is enabled the backoff delay for the
next attempt becomes `min(previous delay * 2, reconnectMaxDelayMs)` (the
doubling in 32-bit arithmetic) and the attempt counter increments by
exactly 1 (mod 2^32); when `autoReconnect` is disabled the delay and the
counter are unchanged. -/
theorem C5_onClose_amended (ws : WebSocketTransport) (now : Nat) :
    (ws.onClose now).state = WebSocketTransport.State.Disconnected ∧
    (ws.config.autoReconnect = true →
      (ws.onClose now).currentDelayMs =
        min ((ws.currentDelayMs * 2) % U32MOD) ws.config.reconnectMaxDelayMs ∧
      (ws.onClose now).reconnectAttempts = (ws.reconnectAttempts + 1) % U32MOD) ∧
    (ws.config.autoReconnect = false →
      (ws.onClose now).currentDelayMs = ws.currentDelayMs ∧
      (ws.onClose now).reconnectAttempts = ws.reconnectAttempts) := by
  unfold WebSocketTransport.onClose WebSocketTransport.scheduleReconnect
  cases h : ws.config.autoReconnect <;> simp [h]

/-- C5 witness: the amended claim at a connected transport with
`autoReconnect` enabled, delay 1000 and cap 8000, closing at t=7. -/
theorem C5_onClose_amended_witness :
    (autoWs.onClose 7).state = WebSocketTransport.State.Disconnected ∧
    autoWs.config.autoReconnect = true ∧
    (autoWs.onClose 7).currentDelayMs =
      min ((autoWs.currentDelayMs * 2) % U32MOD) autoWs.config.reconnectMaxDelayMs ∧
    (autoWs.onClose 7).reconnectAttempts = (autoWs.reconnectAttempts + 1) % U32MOD :=
  ⟨(C5_onClose_amended autoWs 7).1, by decide,
   ((C5_onClose_amended autoWs 7).2.1 (by decide)).1,
   ((C5_onClose_amended autoWs 7).2.1 (by decide)).2⟩

/-- C3: every `send()` while not `Connected` transmits nothing and appends
the frame to the pending buffer; with capacity C = `maxPendingMessages`,
the frame is appended directly when C = 0 or the buffer is not full, the
oldest entry is evicted first when C > 0 and the buffer is full (FIFO
order preserved), and a buffer within its capacity never exceeds C; in
particular with C = 2, sending A = [65], B = [66], C = [67] while
disconnected leaves exactly [[66], [67]]. -/
theorem C3_send_disconnected_buffering (ws : WebSocketTransport) (f : Frame)
    (h : ws.state ≠ WebSocketTransport.State.Connected) :
    ((ws.config.maxPendingMessages = 0 ∨
        ws.pendingMessages.length < ws.config.maxPendingMessages) →
      (ws.send f).1.pendingMessages = ws.pendingMessages ++ [f]) ∧
    (0 < ws.config.maxPendingMessages →
      ws.config.maxPendingMessages ≤ ws.pendingMessages.length →
      (ws.send f).1.pendingMessages = ws.pendingMessages.drop 1 ++ [f]) ∧
    (0 < ws.config.maxPendingMessages →
      ws.pendingMessages.length ≤ ws.config.maxPendingMessages →
      (ws.send f).1.pendingMessages.length ≤ ws.config.maxPendingMessages) ∧
    (ws.send f).2 = [] ∧
    cap2After.pendingMessages = [[66], [67]] := by
  refine ⟨?_, ?_, ?_, ?_, by decide⟩
  · intro hcap
    simp only [WebSocketTransport.send, if_neg h, if_pos hcap]
  · intro hC hlen
    have hneg : ¬(ws.config.maxPendingMessages = 0 ∨
        ws.pendingMessages.length < ws.config.maxPendingMessages) := by omega
    simp only [WebSocketTransport.send, if_neg h, if_neg hneg]
  · intro hC hlen
    by_cases hcap : ws.config.maxPendingMessages = 0 ∨
        ws.pendingMessages.length < ws.config.maxPendingMessages
    · simp only [WebSocketTransport.send, if_neg h, if_pos hcap,
        List.length_append, List.length_cons, List.length_nil]
      omega
    · simp only [WebSocketTransport.send, if_neg h, if_neg hcap,
        List.length_append, List.length_drop, List.length_cons, List.length_nil]
      omega
  · simp only [WebSocketTransport.send, if_neg h]
    split <;> rfl

/-- C3 witness: sending a frame on a freshly constructed (disconnected)
transport with capacity 2 appends it to the empty buffer. -/
theorem C3_send_disconnected_buffering_witness :
    cap2Ws.state ≠ WebSocketTransport.State.Connected ∧
    (cap2Ws.send [65]).1.pendingMessages = [[65]] :=
  ⟨by decide,
   (C3_send_disconnected_buffering cap2Ws [65] (by decide)).1 (Or.inr (by decide))⟩

/-- C4: when the open event fires, the state becomes `Connected`, the
backoff delay is reset to `reconnectDelayMs`, the attempt counter is
reset to 0, every buffered frame is transmitted in FIFO order (the
output list is exactly the pending buffer, oldest first), and the
pending buffer is empty afterwards. -/
theorem C4_onOpen_transition (ws : WebSocketTransport) :
    ws.onOpen.1.state = WebSocketTransport.State.Connected ∧
    ws.onOpen.1.currentDelayMs = ws.config.reconnectDelayMs ∧
    ws.onOpen.1.reconnectAttempts = 0 ∧
    ws.onOpen.2 = ws.pendingMessages ∧
    ws.onOpen.1.pendingMessages = [] := by
  unfold WebSocketTransport.onOpen WebSocketTransport.flushPendingMessages
  by_cases h : ws.pendingMessages = [] <;> simp [h]

/-- C6: every `send()` while `Connected` transmits exactly the given
frame immediately and leaves the transport, in particular the pending
buffer, completely unchanged. -/
theorem C6_send_connected (ws : WebSocketTransport) (f : Frame)
    (h : ws.state = WebSocketTransport.State.Connected) :
    ws.send f = (ws, [f]) := by
  simp [WebSocketTransport.send, h]

/-- C6 witness: a connected transport transmits [9] immediately and is
unchanged. -/
theorem C6_send_connected_witness :
    autoWs.state = WebSocketTransport.State.Connected ∧
    autoWs.send [9] = (autoWs, [[9]]) :=
  ⟨by decide, C6_send_connected autoWs [9] (by decide)⟩

/-- C7 counterexample: on an initialized Datagram Channel with a
registered callback, when an available datagram is empty (0 bytes,
`recvfrom` returns 0), `update()` invokes the callback zero times, not
once, because the code fires the callback only when `bytesReceived > 0`. -/
theorem C7_update_counterexample :
    (udp4096.update (some [])).2.length = 0 ∧
    (udp4096.update (some [])).2.length ≠ 1 ∧
    (udp4096.update (some [])).1 = udp4096 := by
  decide

/-- C7 amended: every `update()` on an initialized Datagram Channel with a
registered receive callback performs one non-blocking receive attempt: if
no datagram is available it returns immediately with no state change and
no callback; a nonempty available datagram yields exactly one callback
carrying its first `min(length, recvBufferSize)` bytes, so a nonempty
datagram no larger than the receive buffer (for example 10 bytes with
`recvBufferSize = 4096`) is delivered whole in a single callback carrying
exactly its bytes; an empty datagram yields no callback. -/
theorem C7_update_amended (u : UdpTransport) (d : Frame)
    (hi : u.initialized = true) (hc : u.onReceive ≠ none) :
    u.update none = (u, []) ∧
    (d ≠ [] → 0 < u.recvBufferLen →
      u.update (some d) = (u, [d.take u.recvBufferLen])) ∧
    (d ≠ [] → d.length ≤ u.recvBufferLen → u.update (some d) = (u, [d])) ∧
    (d = [] → u.update (some d) = (u, [])) := by
  have hguard : ¬(u.initialized = false ∨ u.onReceive = none) := by
    simp [hi, hc]
  refine ⟨?_, ?_, ?_, ?_⟩
  · simp only [UdpTransport.update, if_neg hguard]
  · intro hd hbuf
    have hdl : 0 < d.length := List.length_pos.mpr hd
    have hpos : 0 < min d.length u.recvBufferLen := by omega
    simp only [UdpTransport.update, if_neg hguard]
    simp [hpos]
  · intro hd hlen
    have hdl : 0 < d.length := List.length_pos.mpr hd
    have hpos : 0 < min d.length u.recvBufferLen := by omega
    have htake : d.take u.recvBufferLen = d := List.take_of_length_le hlen
    simp only [UdpTransport.update, if_neg hguard]
    simp [hpos, htake]
  · intro hd
    subst hd
    simp [UdpTransport.update, if_neg hguard]

/-- C7 witness: the amended claim at an initialized transport with
`recvBufferSize = 4096` receiving a 10-byte datagram: one callback with
exactly those 10 bytes. -/
theorem C7_update_amended_witness :
    udp4096.initialized = true ∧ udp4096.onReceive ≠ none ∧
    datagram10 ≠ [] ∧ datagram10.length ≤ udp4096.recvBufferLen ∧
    udp4096.update (some datagram10) = (udp4096, [datagram10]) :=
  ⟨by decide, by decide, by decide, by decide,
   (C7_update_amended udp4096 datagram10 (by decide) (by decide)).2.2.1
     (by decide) (by decide)⟩

/-- C8: with `autoReconnect` disabled, `update()` never issues a connect
attempt and changes nothing, a close event only moves the state to
`Disconnected` without scheduling anything, and `scheduleReconnect`
itself is a no-op; the error handler never changes state; with
`autoReconnect` enabled, `update()` issues a connect attempt exactly when
the state is `Disconnected` and the 32-bit elapsed time since the last
attempt has reached the current backoff delay. -/
theorem C8_reconnect_gating (ws : WebSocketTransport) (now : Nat) (newHandle : Int) :
    (ws.config.autoReconnect = false →
      ws.update now newHandle = (ws, false) ∧
      ws.onClose now = { ws with state := WebSocketTransport.State.Disconnected } ∧
      ws.scheduleReconnect now = ws) ∧
    ws.onError = ws ∧
    (ws.config.autoReconnect = true →
      ((ws.update now newHandle).2 = true ↔
        (ws.state = WebSocketTransport.State.Disconnected ∧
         ws.currentDelayMs ≤ u32sub now ws.lastAttemptMs))) := by
  refine ⟨?_, rfl, ?_⟩
  · intro hauto
    refine ⟨?_, ?_, ?_⟩
    · have hneg : ¬(ws.state = WebSocketTransport.State.Disconnected ∧
          ws.config.autoReconnect = true) := by simp [hauto]
      simp only [WebSocketTransport.update, if_neg hneg]
    · unfold WebSocketTransport.onClose WebSocketTransport.scheduleReconnect
      simp [hauto]
    · unfold WebSocketTransport.scheduleReconnect
      simp [hauto]
  · intro hauto
    by_cases hst : ws.state = WebSocketTransport.State.Disconnected
    · by_cases hdue : ws.currentDelayMs ≤ u32sub now ws.lastAttemptMs
      · simp [WebSocketTransport.update, hst, hauto, hdue]
      · simp [WebSocketTransport.update, hst, hauto, hdue]
    · simp [WebSocketTransport.update, hst, hauto]

/-- C8 witness: the enabled-side equivalence at the concrete disconnected
transport of the backoff scenario, and the disabled-side no-op at the
concrete transport with `autoReconnect` off. -/
theorem C8_reconnect_gating_witness :
    noReconnectWs.config.autoReconnect = false ∧
    noReconnectWs.update 2100 2 = (noReconnectWs, false) ∧
    c1ws2.config.autoReconnect = true ∧
    ((c1ws2.update 2100 2).2 = true ↔
      (c1ws2.state = WebSocketTransport.State.Disconnected ∧
       c1ws2.currentDelayMs ≤ u32sub 2100 c1ws2.lastAttemptMs)) :=
  ⟨by decide,
   ((C8_reconnect_gating noReconnectWs 2100 2).1 (by decide)).1,
   by decide,
   (C8_reconnect_gating c1ws2 2100 2).2.2 (by decide)⟩

/-- C9: moving an initialized Datagram Channel transfers the socket and
leaves the destination initialized with the same configuration, callback
and peer address; the source is reset to an uninitialized, inert state:
`isReady()` is false and `send()` / `update()` do nothing; move
assignment performs the same transfer. -/
theorem C9_move_transfer (u v : UdpTransport) (f : Frame) (inc : Option Frame)
    (h : u.initialized = true) :
    u.moveFrom.1.initialized = true ∧
    u.moveFrom.1.config = u.config ∧
    u.moveFrom.1.onReceive = u.onReceive ∧
    u.moveFrom.1.destAddr = u.destAddr ∧
    u.moveFrom.1.socket = u.socket ∧
    u.moveFrom.2.initialized = false ∧
    u.moveFrom.2.socket = -1 ∧
    u.moveFrom.2.isReady = false ∧
    u.moveFrom.2.send f = (u.moveFrom.2, none) ∧
    u.moveFrom.2.update inc = (u.moveFrom.2, []) ∧
    UdpTransport.moveAssign v u = u.moveFrom := by
  refine ⟨h, rfl, rfl, rfl, rfl, rfl, rfl, rfl, ?_, ?_, rfl⟩
  · simp [UdpTransport.moveFrom, UdpTransport.send]
  · simp [UdpTransport.moveFrom, UdpTransport.update]

/-- C9 witness: the move theorem at the concrete initialized transport
`udp4096`. -/
theorem C9_move_transfer_witness :
    udp4096.initialized = true ∧
    udp4096.moveFrom.1.initialized = true ∧
    udp4096.moveFrom.2.send [1] = (udp4096.moveFrom.2, none) :=
  ⟨by decide,
   (C9_move_transfer udp4096 udp4096 [1] none (by decide)).1,
   (C9_move_transfer udp4096 udp4096 [1] none (by decide)).2.2.2.2.2.2.2.2.1⟩

/-- C10: on a Datagram Channel whose `init()` has not succeeded
(`initialized_` is false: never called, failed, or reset by a move),
`send()` transmits no datagram, `update()` invokes no callback, both
leave the instance unchanged, and `isReady()` is false. -/
theorem C10_uninitialized_noop (u : UdpTransport) (f : Frame) (inc : Option Frame)
    (h : u.initialized = false) :
    u.send f = (u, none) ∧ u.update inc = (u, []) ∧ u.isReady = false := by
  simp [UdpTransport.send, UdpTransport.update, UdpTransport.isReady, h]

/-- C10 witness: the no-op theorem at a freshly constructed transport on
which `init()` was never called. -/
theorem C10_uninitialized_noop_witness :
    freshUdp.initialized = false ∧
    freshUdp.send [1] = (freshUdp, none) ∧
    freshUdp.update (some [7]) = (freshUdp, []) :=
  ⟨by decide,
   (C10_uninitialized_noop freshUdp [1] (some [7]) (by decide)).1,
   (C10_uninitialized_noop freshUdp [1] (some [7]) (by decide)).2.1⟩

end oc.hal.net
